import Mathlib

/-!
Shallow embedding of the explaindiffs repository (src/common_scripts/inat_api.py
and src/confmat_inat.py) and proofs about its claims.

The remote iNaturalist HTTP API is modelled as oracles: a taxon-search oracle
(free-text query to a list of taxon records), a taxon-lookup oracle (ID to a
list of taxon records) and an observation-page oracle (full request parameters
to either a transport/parse error or a list of observation records).  Network
calls that can raise in Python are modelled with Option/Except; the time.sleep
call is modelled as an explicit event in a trace, so that ordering and spacing
claims can be stated about the list of emitted events.
-/

namespace InatApi

/-- A taxon as carried inside an identification record of the observations
endpoint: a numeric ID and a scientific name. -/
structure Taxon where
  id : Nat
  name : String
deriving DecidableEq, Repr

/-- One identification event of an observation; the code reads only
ident[taxon]. -/
structure Identification where
  taxon : Taxon
deriving DecidableEq, Repr

/-- One observation record of the observations endpoint; the code reads only
its ordered identifications list. -/
structure Observation where
  identifications : List Identification
deriving DecidableEq, Repr

/-- One entry of the output of get_id_histories: a dict with a single key
history holding the list of taxon names. -/
structure IdHistoryEntry where
  history : List String
deriving DecidableEq, Repr

/-- A taxon record as returned by the taxa endpoints: the code reads id,
name and observations_count. -/
structure TaxonRecord where
  id : Nat
  name : String
  observations_count : Nat
deriving DecidableEq, Repr

/-- The parameters of one GET request to the observations endpoint, exactly
the params dict built in get_id_histories (inat_api.py lines 133-140).
per_page is an Int because Python computes min(obs_per_page,
n_obs - page_id * obs_per_page) over signed integers. -/
structure ObsRequest where
  taxon_id : Nat
  per_page : Int
  page : Nat
  identified : String
  quality_grade : String
deriving DecidableEq, Repr

/-- An externally observable event of a fetch run: an HTTP page request with
its parameters, or a time.sleep of the given duration. -/
inductive Event where
  | request (r : ObsRequest)
  | sleep (d : ℚ)
deriving DecidableEq, Repr

/-- Default time delay between iNat API requests in seconds
(inat_api.py line 15). -/
def INAT_DELAY : ℚ := 1

/-- The params dict for page index page_id in get_id_histories:
taxon_id, per_page = min(obs_per_page, n_obs - page_id * obs_per_page),
page = page_id + 1, identified = true, quality_grade = research. -/
def mkObsRequest (taxon_id n_obs obs_per_page page_id : Nat) : ObsRequest :=
  { taxon_id := taxon_id
    per_page := min (obs_per_page : Int) ((n_obs : Int) - (page_id : Int) * (obs_per_page : Int))
    page := page_id + 1
    identified := "true"
    quality_grade := "research" }

/-- The per-observation conversion inside get_id_histories (lines 143-148):
history is the taxon name of each identification, in the given order. -/
def extractHistory (obs_one : Observation) : IdHistoryEntry :=
  { history := obs_one.identifications.map (fun ident => ident.taxon.name) }

/-- The body of the page loop of get_id_histories (lines 131-154), written as
structural recursion over the remaining list of page ids.  For each page id
the request is issued; a failing request (transport error, non-2xx turned
into a parse failure, or missing results key) raises, so the loop stops with
that error and without the sleep of that iteration; a successful request
appends the extracted histories to the accumulator and sleeps for the delay
before the next iteration. -/
def fetchLoop {ε : Type} (oracle : ObsRequest → Except ε (List Observation))
    (taxon_id n_obs obs_per_page : Nat) (delay : ℚ) :
    List Nat → List IdHistoryEntry → List Event →
    List Event × Except ε (List IdHistoryEntry)
  | [], id_histories, tr => (tr, Except.ok id_histories)
  | page_id :: rest, id_histories, tr =>
    match oracle (mkObsRequest taxon_id n_obs obs_per_page page_id) with
    | Except.error e =>
        (tr ++ [Event.request (mkObsRequest taxon_id n_obs obs_per_page page_id)],
         Except.error e)
    | Except.ok obs =>
        fetchLoop oracle taxon_id n_obs obs_per_page delay rest
          (id_histories ++ obs.map extractHistory)
          (tr ++ [Event.request (mkObsRequest taxon_id n_obs obs_per_page page_id),
                  Event.sleep delay])

/-- One run of the page loop of get_id_histories with the total count n_obs
already known: page ids range over range(0, n_obs // obs_per_page + 1).
Returns the full event trace together with the result (the concatenated
identification histories, or the propagated error of the first failing
page). -/
def get_id_histories_run {ε : Type} (oracle : ObsRequest → Except ε (List Observation))
    (taxon_id n_obs obs_per_page : Nat) (delay : ℚ) :
    List Event × Except ε (List IdHistoryEntry) :=
  fetchLoop oracle taxon_id n_obs obs_per_page delay
    (List.range (n_obs / obs_per_page + 1)) [] []

/-- The remote service as seen by the functions of inat_api.py: a taxon
lookup by ID (GET taxa id, its results list) and the observations page
endpoint. -/
structure Env (ε : Type) where
  taxaById : Nat → List TaxonRecord
  obsPage : ObsRequest → Except ε (List Observation)

/-- Embedding of get_obs_n (inat_api.py lines 85-101): the
observations_count of the first record of the taxa-by-ID lookup; the
Python indexing taxa[0] raises IndexError on an empty results list,
modelled as none. -/
def get_obs_n {ε : Type} (env : Env ε) (taxon_id : Nat) : Option Nat :=
  match env.taxaById taxon_id with
  | [] => none
  | t :: _ => some t.observations_count

/-- Embedding of get_id_histories (inat_api.py lines 104-156): when n_obs is
None it is first obtained via get_obs_n (line 125-126), whose failure
propagates; then the page loop runs.  The outer Option is the possible
failure of that initial count lookup. -/
def get_id_histories {ε : Type} (env : Env ε) (taxon_id : Nat) (n_obs : Option Nat)
    (obs_per_page : Nat) (delay : ℚ) :
    Option (List Event × Except ε (List IdHistoryEntry)) :=
  match n_obs with
  | none =>
      (get_obs_n env taxon_id).map
        (fun n => get_id_histories_run env.obsPage taxon_id n obs_per_page delay)
  | some n => some (get_id_histories_run env.obsPage taxon_id n obs_per_page delay)

/-- Embedding of get_taxon_id (inat_api.py lines 21-40): search is the
taxon-search endpoint (free-text query to its results list); the code takes
obs[0] and returns its id; Python indexing on an empty list raises
IndexError, modelled as none. -/
def get_taxon_id (search : String → List TaxonRecord) (taxon : String) : Option Nat :=
  match search taxon with
  | [] => none
  | t :: _ => some t.id

/-- Embedding of get_taxon_ids (inat_api.py lines 42-54): the list
comprehension applies get_taxon_id to each name left to right; the first
raised exception aborts the whole comprehension with no partial list, which
is exactly the Option-monadic traversal. -/
def get_taxon_ids (search : String → List TaxonRecord) (taxa : List String) :
    Option (List Nat) :=
  taxa.mapM (get_taxon_id search)

/-- Embedding of get_taxon_name (inat_api.py lines 56-72): the name of the
first record of the taxa-by-ID lookup; IndexError on an empty results list
is modelled as none. -/
def get_taxon_name (lookup : Nat → List TaxonRecord) (taxon_id : Nat) : Option String :=
  match lookup taxon_id with
  | [] => none
  | t :: _ => some t.name

/-- Embedding of get_taxon_names (inat_api.py lines 74-83): the function
body consists only of the docstring, so the Python function performs no
lookups and returns None for every input; none models that returned None. -/
def get_taxon_names (taxon_ids : List Nat) : Option (List String) :=
  none

/-- Modelled from the spec: the batch behaviour that the docstring of
get_taxon_names and spec section 4.1 describe (apply the single-item
operation across the ordered inputs, position-preserving, failing as soon
as any one item fails), used only to exhibit the divergence of the empty
function body from its own documentation. -/
def get_taxon_names_documented (lookup : Nat → List TaxonRecord) (taxon_ids : List Nat) :
    Option (List String) :=
  taxon_ids.mapM (get_taxon_name lookup)

/-- A similar-species record of the identifications similar_species
endpoint: the code reads sp[taxon][id] and sp[count]. -/
structure SimSpRecord where
  taxon : Taxon
  count : Nat
deriving DecidableEq, Repr

/-- Embedding of get_sim_spp (inat_api.py lines 158-181): results is the
results list of the similar-species endpoint; the code maps each record to
the pair of its taxon id and its count. -/
def get_sim_spp (results : List SimSpRecord) : List (Nat × Nat) :=
  results.map (fun sp => (sp.taxon.id, sp.count))

/-- The requests contained in an event trace, in order. -/
def requestsOf (tr : List Event) : List ObsRequest :=
  tr.filterMap (fun e =>
    match e with
    | Event.request r => some r
    | Event.sleep _ => none)

/-- The two events of one successful loop iteration for page index i: the
page request followed by the sleep. -/
def stepEvents (taxon_id n_obs obs_per_page : Nat) (delay : ℚ) (i : Nat) : List Event :=
  [Event.request (mkObsRequest taxon_id n_obs obs_per_page i), Event.sleep delay]

/-- The event trace of k fully successful loop iterations, page indices
0 to k-1. -/
def okTrace (taxon_id n_obs obs_per_page : Nat) (delay : ℚ) (k : Nat) : List Event :=
  ((List.range k).map (stepEvents taxon_id n_obs obs_per_page delay)).flatten

/-- An oracle that never fails, answering each page request from a fixed
page table. -/
def okOracle {ε : Type} (pages : ObsRequest → List Observation) :
    ObsRequest → Except ε (List Observation) :=
  fun r => Except.ok (pages r)

/-- The ceiling division the spec words use: ceil(n over p) for p positive. -/
def specCeilDiv (n p : Nat) : Nat := (n + p - 1) / p

/-- The analogous fetch in src/confmat_inat.py (lines 6-46) keys the
observations request by taxon_name instead of taxon_id; its pagination
arithmetic is identical.  The list of requests it issues, in order. -/
structure ConfmatRequest where
  taxon_name : String
  per_page : Int
  page : Nat
  identified : String
  quality_grade : String
deriving DecidableEq, Repr

/-- The requests that confmat_inat.get_id_histories issues for a taxon name
and total count: page ids range over range(0, n_obs // obs_per_page + 1)
with the same per_page and page parameters as the inat_api fetcher. -/
def confmat_requests (taxon : String) (n_obs obs_per_page : Nat) : List ConfmatRequest :=
  (List.range (n_obs / obs_per_page + 1)).map (fun (page_id : Nat) =>
    { taxon_name := taxon
      per_page := min (obs_per_page : Int) ((n_obs : Int) - (page_id : Int) * (obs_per_page : Int))
      page := page_id + 1
      identified := "true"
      quality_grade := "research" })

/-- A concrete oracle whose very first page request fails, with a transport
error that carries no page information. -/
def failFirstOracle : ObsRequest → Except String (List Observation) :=
  fun _ => Except.error "boom"

/-- A concrete oracle whose second page (page parameter 2, page index 1)
fails with the same error value as failFirstOracle, while every other page
answers an empty page. -/
def failSecondOracle : ObsRequest → Except String (List Observation) :=
  fun r => if r.page = 2 then Except.error "boom" else Except.ok []

/-- A concrete taxon-search oracle with an empty result set for every
query. -/
def emptySearch : String → List TaxonRecord :=
  fun _ => []

/-- A concrete taxon-search oracle returning two candidates for every
query, the first being Rumex with ID 47126. -/
def rumexSearch : String → List TaxonRecord :=
  fun _ => [⟨47126, "Rumex", 450⟩, ⟨5, "Other", 3⟩]

/-- A concrete environment: the taxa-by-ID lookup reports 450 observations
for every taxon, and every observation page is empty. -/
def rumexEnv : Env String :=
  { taxaById := fun _ => [⟨47126, "Rumex", 450⟩]
    obsPage := fun _ => Except.ok [] }

/-!
Helper lemmas about the fetch loop, shared by several claims.
-/

/-- When every page id in the remaining list answers successfully, the loop
emits, after the accumulated trace, a request-then-sleep pair per page id,
and ends in an Except.ok result. -/
lemma fetchLoop_all_ok {ε : Type} (oracle : ObsRequest → Except ε (List Observation))
    (taxon_id n_obs obs_per_page : Nat) (delay : ℚ) (ids : List Nat) :
    ∀ (acc : List IdHistoryEntry) (tr : List Event),
      (∀ i ∈ ids, ∃ o, oracle (mkObsRequest taxon_id n_obs obs_per_page i) = Except.ok o) →
      ∃ hs, fetchLoop oracle taxon_id n_obs obs_per_page delay ids acc tr =
        (tr ++ (ids.map (stepEvents taxon_id n_obs obs_per_page delay)).flatten,
         Except.ok hs) := by
  induction ids with
  | nil =>
    intro acc tr _
    exact ⟨acc, by simp [fetchLoop]⟩
  | cons i rest ih =>
    intro acc tr h
    obtain ⟨o, ho⟩ := h i (List.mem_cons_self _ _)
    obtain ⟨hs, hrec⟩ := ih (acc ++ o.map extractHistory)
      (tr ++ [Event.request (mkObsRequest taxon_id n_obs obs_per_page i),
              Event.sleep delay])
      (fun j hj => h j (List.mem_cons_of_mem _ hj))
    refine ⟨hs, ?_⟩
    simp only [fetchLoop, ho]
    rw [hrec]
    simp [stepEvents]

/-- When every page id before k answers successfully and page id k fails
with error e, the loop run on those ids emits the successful pairs followed
by the failing request (with no sleep after it) and propagates e. -/
lemma fetchLoop_fail {ε : Type} (oracle : ObsRequest → Except ε (List Observation))
    (taxon_id n_obs obs_per_page : Nat) (delay : ℚ) (k : Nat) (e : ε)
    (ids₁ : List Nat) :
    ∀ (rest : List Nat) (acc : List IdHistoryEntry) (tr : List Event),
      (∀ i ∈ ids₁, ∃ o, oracle (mkObsRequest taxon_id n_obs obs_per_page i) = Except.ok o) →
      oracle (mkObsRequest taxon_id n_obs obs_per_page k) = Except.error e →
      fetchLoop oracle taxon_id n_obs obs_per_page delay (ids₁ ++ k :: rest) acc tr =
        (tr ++ (ids₁.map (stepEvents taxon_id n_obs obs_per_page delay)).flatten ++
           [Event.request (mkObsRequest taxon_id n_obs obs_per_page k)],
         Except.error e) := by
  induction ids₁ with
  | nil =>
    intro rest acc tr _ hk
    rw [List.nil_append, fetchLoop, hk]
    simp
  | cons i restIds ih =>
    intro rest acc tr h hk
    obtain ⟨o, ho⟩ := h i (List.mem_cons_self _ _)
    rw [List.cons_append]
    simp only [fetchLoop, ho]
    rw [ih rest (acc ++ o.map extractHistory)
          (tr ++ [Event.request (mkObsRequest taxon_id n_obs obs_per_page i),
                  Event.sleep delay])
          (fun j hj => h j (List.mem_cons_of_mem _ hj)) hk]
    simp [stepEvents]

/-- A range list splits at any element below its bound. -/
lemma range_split {k m : Nat} (h : k < m) :
    ∃ rest, List.range m = List.range k ++ k :: rest := by
  refine ⟨(List.range (m - k - 1)).map (fun j => (k + 1) + j), ?_⟩
  have hm : m = (k + 1) + (m - k - 1) := by omega
  conv_lhs => rw [hm]
  rw [List.range_add, List.range_succ]
  simp

/-- The requests of a trace of successful request-then-sleep pairs are the
requests of those pages, in order. -/
lemma requestsOf_okTrace (taxon_id n_obs obs_per_page : Nat) (delay : ℚ) :
    ∀ ids : List Nat,
      requestsOf ((ids.map (stepEvents taxon_id n_obs obs_per_page delay)).flatten) =
        ids.map (mkObsRequest taxon_id n_obs obs_per_page)
  | [] => rfl
  | i :: rest => by
    have ih := requestsOf_okTrace taxon_id n_obs obs_per_page delay rest
    simp only [List.map_cons, List.flatten_cons, requestsOf, List.filterMap_append] at ih ⊢
    rw [ih]
    simp [stepEvents, List.filterMap_cons]

/-- When the page size is positive and does not divide the total count,
floor division plus one agrees with the ceiling division of the spec. -/
lemma div_succ_eq_specCeilDiv {n p : Nat} (hp : 0 < p) (hnd : ¬ p ∣ n) :
    n / p + 1 = specCeilDiv n p := by
  have h0 : n % p ≠ 0 := fun h => hnd (Nat.dvd_of_mod_eq_zero h)
  have hlt : n % p < p := Nat.mod_lt _ hp
  have hn : p * (n / p) + n % p = n := Nat.div_add_mod n p
  unfold specCeilDiv
  have hmul : p * (n / p + 1) = p * (n / p) + p := by ring
  have hrw : n + p - 1 = p * (n / p + 1) + (n % p - 1) := by omega
  rw [hrw, Nat.mul_add_div hp]
  have hz : (n % p - 1) / p = 0 := Nat.div_eq_of_lt (by omega)
  omega

/-- The per_page parameter of the last page request equals the remainder of
the total count by the page size. -/
lemma per_page_last (taxon_id n_obs obs_per_page : Nat) (hP : 0 < obs_per_page) :
    (mkObsRequest taxon_id n_obs obs_per_page (n_obs / obs_per_page)).per_page =
      ((n_obs % obs_per_page : Nat) : Int) := by
  have hn : obs_per_page * (n_obs / obs_per_page) + n_obs % obs_per_page = n_obs :=
    Nat.div_add_mod n_obs obs_per_page
  have hlt : n_obs % obs_per_page < obs_per_page := Nat.mod_lt _ hP
  have hrw : (n_obs : Int) - (n_obs / obs_per_page : Nat) * (obs_per_page : Int) =
      ((n_obs % obs_per_page : Nat) : Int) := by
    have h2 : ((obs_per_page : Int)) * ((n_obs / obs_per_page : Nat) : Int) +
        ((n_obs % obs_per_page : Nat) : Int) = (n_obs : Int) := by
      exact_mod_cast hn
    linarith
  unfold mkObsRequest
  simp only [hrw]
  exact min_eq_right (by exact_mod_cast le_of_lt hlt)

/-- The last element of a mapped range of positive length. -/
lemma getLast?_map_range {α : Type} (f : Nat → α) (m : Nat) :
    ((List.range (m + 1)).map f).getLast? = some (f m) := by
  rw [List.range_succ, List.map_append]
  simp

/-- When every page of the run answers successfully, the run emits a
request-then-sleep pair per page id 0 to n_obs over obs_per_page and
returns an Except.ok result. -/
lemma run_all_ok {ε : Type} (oracle : ObsRequest → Except ε (List Observation))
    (taxon_id n_obs obs_per_page : Nat) (delay : ℚ)
    (hok : ∀ i < n_obs / obs_per_page + 1,
      ∃ o, oracle (mkObsRequest taxon_id n_obs obs_per_page i) = Except.ok o) :
    ∃ hs, get_id_histories_run oracle taxon_id n_obs obs_per_page delay =
      (okTrace taxon_id n_obs obs_per_page delay (n_obs / obs_per_page + 1),
       Except.ok hs) := by
  obtain ⟨hs, hrun⟩ := fetchLoop_all_ok oracle taxon_id n_obs obs_per_page delay
    (List.range (n_obs / obs_per_page + 1)) [] []
    (fun i hi => hok i (List.mem_range.mp hi))
  exact ⟨hs, by unfold get_id_histories_run; rw [hrun]; rfl⟩

/-- When the pages before index k answer successfully and page k fails with
error e, the run emits the k successful request-then-sleep pairs followed
by the failing request (with no sleep after it) and returns exactly that
error. -/
lemma run_fail {ε : Type} (oracle : ObsRequest → Except ε (List Observation))
    (taxon_id n_obs obs_per_page : Nat) (delay : ℚ) (k : Nat) (e : ε)
    (hk : k < n_obs / obs_per_page + 1)
    (hok : ∀ j < k, ∃ o, oracle (mkObsRequest taxon_id n_obs obs_per_page j) = Except.ok o)
    (herr : oracle (mkObsRequest taxon_id n_obs obs_per_page k) = Except.error e) :
    get_id_histories_run oracle taxon_id n_obs obs_per_page delay =
      (okTrace taxon_id n_obs obs_per_page delay k ++
         [Event.request (mkObsRequest taxon_id n_obs obs_per_page k)],
       Except.error e) := by
  obtain ⟨rest, hsplit⟩ := range_split hk
  unfold get_id_histories_run
  rw [hsplit, fetchLoop_fail oracle taxon_id n_obs obs_per_page delay k e
    (List.range k) rest [] []
    (fun i hi => hok i (List.mem_range.mp hi)) herr]
  rfl

/-- On a fully successful run, the requests of the trace are the params
dicts of pages 0 to n_obs over obs_per_page, in order. -/
lemma run_ok_requests {ε : Type} (pages : ObsRequest → List Observation)
    (taxon_id n_obs obs_per_page : Nat) (delay : ℚ) :
    requestsOf (get_id_histories_run (okOracle (ε := ε) pages)
        taxon_id n_obs obs_per_page delay).1 =
      (List.range (n_obs / obs_per_page + 1)).map
        (mkObsRequest taxon_id n_obs obs_per_page) := by
  obtain ⟨hs, hrun⟩ := run_all_ok (okOracle (ε := ε) pages)
    taxon_id n_obs obs_per_page delay
    (fun i _ => ⟨pages (mkObsRequest taxon_id n_obs obs_per_page i), rfl⟩)
  rw [hrun]
  simpa [okTrace] using requestsOf_okTrace taxon_id n_obs obs_per_page delay
    (List.range (n_obs / obs_per_page + 1))

end InatApi

open InatApi

/-- C1 (amended): for every taxon with observations_count N and every page
size P with 0 < P, a fully successful run of get_id_histories issues exactly
N / P + 1 page requests (floor division plus one, which equals ceil(N / P)
exactly when P does not divide N), requesting page index i with page = i + 1
and per_page = min(P, N - i * P) together with the identified and
research-grade filters, and the per_page of the last request equals N mod P;
the disposable fetcher of confmat_inat.py issues the same number of requests
with the same parameters keyed by taxon name.  The frozen claim states the
request count as ceil(N / P) and the last per_page as
N - (ceil(N / P) - 1) * P, which fails whenever P divides N. -/
theorem claim_C1_pagination {ε : Type} (pages : ObsRequest → List Observation)
    (taxon : String) (taxon_id n_obs obs_per_page : Nat) (delay : ℚ)
    (hP : 0 < obs_per_page) :
    requestsOf (get_id_histories_run (okOracle (ε := ε) pages)
        taxon_id n_obs obs_per_page delay).1 =
      (List.range (n_obs / obs_per_page + 1)).map
        (mkObsRequest taxon_id n_obs obs_per_page)
    ∧ (requestsOf (get_id_histories_run (okOracle (ε := ε) pages)
        taxon_id n_obs obs_per_page delay).1).length = n_obs / obs_per_page + 1
    ∧ (¬ obs_per_page ∣ n_obs →
        n_obs / obs_per_page + 1 = specCeilDiv n_obs obs_per_page)
    ∧ (requestsOf (get_id_histories_run (okOracle (ε := ε) pages)
        taxon_id n_obs obs_per_page delay).1).getLast? =
        some (mkObsRequest taxon_id n_obs obs_per_page (n_obs / obs_per_page))
    ∧ (mkObsRequest taxon_id n_obs obs_per_page (n_obs / obs_per_page)).per_page =
        ((n_obs % obs_per_page : Nat) : Int)
    ∧ (confmat_requests taxon n_obs obs_per_page).length =
        n_obs / obs_per_page + 1 := by
  have hreq := run_ok_requests (ε := ε) pages taxon_id n_obs obs_per_page delay
  refine ⟨hreq, ?_, fun hnd => div_succ_eq_specCeilDiv hP hnd, ?_, ?_, ?_⟩
  · rw [hreq]
    simp
  · rw [hreq]
    exact getLast?_map_range _ _
  · exact per_page_last taxon_id n_obs obs_per_page hP
  · unfold confmat_requests
    simp

/-- C1 as stated is false on the code: with observations_count 400 and page
size 200 the fetcher issues 3 page requests, while ceil(400 / 200) = 2. -/
theorem claim_C1_counterexample :
    (requestsOf (get_id_histories_run (okOracle (ε := Unit) (fun _ => []))
        7 400 200 1).1).length = 3
    ∧ specCeilDiv 400 200 = 2 := by
  constructor <;> rfl

/-- Witness: the amended C1 at taxon Rumex, taxon ID 1, observations_count
450 and page size 200 gives requests for pages 1, 2, 3 and a last per_page
of 450 mod 200 = 50, with floor(450 / 200) + 1 = ceil(450 / 200) = 3. -/
theorem claim_C1_pagination_witness :
    requestsOf (get_id_histories_run (okOracle (ε := Unit) (fun _ => []))
        1 450 200 1).1 =
      (List.range (450 / 200 + 1)).map (mkObsRequest 1 450 200)
    ∧ 450 / 200 + 1 = specCeilDiv 450 200
    ∧ (mkObsRequest 1 450 200 (450 / 200)).per_page = ((450 % 200 : Nat) : Int) := by
  have h := claim_C1_pagination (ε := Unit) (fun _ => []) "Rumex" 1 450 200 1
    (by decide)
  exact ⟨h.1, h.2.2.1 (by decide), h.2.2.2.2.1⟩

/-- C10: when the page size P is positive and divides the total count N
(including N = 0), a fully successful run issues N / P + 1 page requests and
the final request carries per_page = 0, because the loop bound
range(0, N // P + 1) includes page index N / P, where
min(P, N - (N / P) * P) = 0; the confmat_inat.py fetcher issues the same
final request. -/
theorem claim_C10_divisible {ε : Type} (pages : ObsRequest → List Observation)
    (taxon : String) (taxon_id n_obs obs_per_page : Nat) (delay : ℚ)
    (hP : 0 < obs_per_page) (hdvd : obs_per_page ∣ n_obs) :
    (requestsOf (get_id_histories_run (okOracle (ε := ε) pages)
        taxon_id n_obs obs_per_page delay).1).length = n_obs / obs_per_page + 1
    ∧ (requestsOf (get_id_histories_run (okOracle (ε := ε) pages)
        taxon_id n_obs obs_per_page delay).1).getLast? =
        some (mkObsRequest taxon_id n_obs obs_per_page (n_obs / obs_per_page))
    ∧ (mkObsRequest taxon_id n_obs obs_per_page (n_obs / obs_per_page)).per_page = 0
    ∧ (confmat_requests taxon n_obs obs_per_page).length =
        n_obs / obs_per_page + 1 := by
  have hreq := run_ok_requests (ε := ε) pages taxon_id n_obs obs_per_page delay
  have hmod : n_obs % obs_per_page = 0 := Nat.mod_eq_zero_of_dvd hdvd
  refine ⟨?_, ?_, ?_, ?_⟩
  · rw [hreq]
    simp
  · rw [hreq]
    exact getLast?_map_range _ _
  · rw [per_page_last taxon_id n_obs obs_per_page hP, hmod]
    rfl
  · unfold confmat_requests
    simp

/-- Witness: C10 at taxon Rumex, taxon ID 1, observations_count 400 and page
size 200: the run issues 400 / 200 + 1 = 3 page requests and the last one
has per_page = 0. -/
theorem claim_C10_divisible_witness :
    (requestsOf (get_id_histories_run (okOracle (ε := Unit) (fun _ => []))
        1 400 200 1).1).length = 400 / 200 + 1
    ∧ (mkObsRequest 1 400 200 (400 / 200)).per_page = 0 := by
  have h := claim_C10_divisible (ε := Unit) (fun _ => []) "Rumex" 1 400 200 1
    (by decide) (by decide)
  exact ⟨h.1, h.2.2.1⟩

/-- C2 (amended): when the pages before index k succeed and the request for
page index k fails with the underlying error e, the whole fetch fails with
exactly that propagated error — the raised exception itself does not carry
the page index — no partial list of histories reaches the caller, and every
page is requested at most once (pages 1 to k + 1, each exactly once, so no
request is retried).  The frozen claim additionally states that the error
carries the failing page index, which the code does not do. -/
theorem claim_C2_abort {ε : Type} (oracle : ObsRequest → Except ε (List Observation))
    (taxon_id n_obs obs_per_page : Nat) (delay : ℚ) (k : Nat) (e : ε)
    (hk : k < n_obs / obs_per_page + 1)
    (hok : ∀ j < k, ∃ o, oracle (mkObsRequest taxon_id n_obs obs_per_page j) = Except.ok o)
    (herr : oracle (mkObsRequest taxon_id n_obs obs_per_page k) = Except.error e) :
    (get_id_histories_run oracle taxon_id n_obs obs_per_page delay).2 = Except.error e
    ∧ (get_id_histories_run oracle taxon_id n_obs obs_per_page delay).1 =
        okTrace taxon_id n_obs obs_per_page delay k ++
          [Event.request (mkObsRequest taxon_id n_obs obs_per_page k)]
    ∧ requestsOf (get_id_histories_run oracle taxon_id n_obs obs_per_page delay).1 =
        (List.range (k + 1)).map (mkObsRequest taxon_id n_obs obs_per_page)
    ∧ ((requestsOf (get_id_histories_run oracle taxon_id n_obs obs_per_page delay).1).map
        (fun r => r.page)).Nodup := by
  have hrun := run_fail oracle taxon_id n_obs obs_per_page delay k e hk hok herr
  have hreq : requestsOf (get_id_histories_run oracle taxon_id n_obs obs_per_page delay).1 =
      (List.range (k + 1)).map (mkObsRequest taxon_id n_obs obs_per_page) := by
    rw [hrun]
    simp only [requestsOf, List.filterMap_append]
    have h1 := requestsOf_okTrace taxon_id n_obs obs_per_page delay (List.range k)
    simp only [requestsOf, okTrace] at h1 ⊢
    rw [h1, List.range_succ, List.map_append]
    rfl
  refine ⟨by rw [hrun], by rw [hrun], hreq, ?_⟩
  rw [hreq, List.map_map]
  have hpage : ((fun r => r.page) ∘ mkObsRequest taxon_id n_obs obs_per_page) =
      (fun i => i + 1) := by
    funext i
    rfl
  rw [hpage]
  exact List.Nodup.map (fun a b hab => by omega) (List.nodup_range _)

/-- C2 as stated is false on the code: two runs that fail at different page
indices (page index 0 under failFirstOracle, page index 1 under
failSecondOracle) return the identical error value boom, so the error the
caller receives cannot carry the failing page index. -/
theorem claim_C2_counterexample :
    (get_id_histories_run failFirstOracle 1 450 200 1).2 = Except.error "boom"
    ∧ (get_id_histories_run failSecondOracle 1 450 200 1).2 = Except.error "boom"
    ∧ failFirstOracle (mkObsRequest 1 450 200 0) = Except.error "boom"
    ∧ failSecondOracle (mkObsRequest 1 450 200 0) = Except.ok []
    ∧ failSecondOracle (mkObsRequest 1 450 200 1) = Except.error "boom"
    ∧ (get_id_histories_run failFirstOracle 1 450 200 1).2 =
        (get_id_histories_run failSecondOracle 1 450 200 1).2 :=
  ⟨rfl, rfl, rfl, rfl, rfl, rfl⟩

/-- Witness: the amended C2 under failSecondOracle with observations_count
450 and page size 200: page index 0 succeeds, page index 1 fails, and the
fetch returns the propagated error after the trace of one successful pair
and the failing request. -/
theorem claim_C2_abort_witness :
    (get_id_histories_run failSecondOracle 1 450 200 1).2 = Except.error "boom"
    ∧ (get_id_histories_run failSecondOracle 1 450 200 1).1 =
        okTrace 1 450 200 1 1 ++ [Event.request (mkObsRequest 1 450 200 1)] := by
  have h := claim_C2_abort failSecondOracle 1 450 200 1 1 "boom" (by decide)
    (fun j hj => by
      interval_cases j
      exact ⟨[], rfl⟩)
    rfl
  exact ⟨h.1, h.2.1⟩

/-- C3 (amended): every run of the fetcher requests pages strictly in
increasing page-index order (pages 1, 2, 3, up to the last page requested),
sequentially: on a fully successful run the trace is exactly a request
followed by a sleep of the configured delay for every page including the
last, and on a failing run it is the request-then-sleep pairs of the
successful pages followed by the failing request, which is not followed by
a sleep.  In both cases a sleep of the configured delay separates any two
consecutive requests.  The frozen claim additionally states that the
fetcher suspends after every request even on failing runs, which the code
does not do: the raised exception skips the sleep of that iteration. -/
theorem claim_C3_ordering {ε : Type} (oracle : ObsRequest → Except ε (List Observation))
    (taxon_id n_obs obs_per_page : Nat) (delay : ℚ) :
    ((∃ hs, (get_id_histories_run oracle taxon_id n_obs obs_per_page delay).2 =
        Except.ok hs) →
      (get_id_histories_run oracle taxon_id n_obs obs_per_page delay).1 =
        okTrace taxon_id n_obs obs_per_page delay (n_obs / obs_per_page + 1))
    ∧ (∀ e, (get_id_histories_run oracle taxon_id n_obs obs_per_page delay).2 =
        Except.error e →
      ∃ k, k < n_obs / obs_per_page + 1 ∧
        (get_id_histories_run oracle taxon_id n_obs obs_per_page delay).1 =
          okTrace taxon_id n_obs obs_per_page delay k ++
            [Event.request (mkObsRequest taxon_id n_obs obs_per_page k)] ∧
        oracle (mkObsRequest taxon_id n_obs obs_per_page k) = Except.error e)
    ∧ ∃ m, ((requestsOf (get_id_histories_run oracle taxon_id n_obs obs_per_page delay).1).map
        (fun r => r.page)) = (List.range m).map (fun i => i + 1) := by
  by_cases hall : ∀ i < n_obs / obs_per_page + 1,
      ∃ o, oracle (mkObsRequest taxon_id n_obs obs_per_page i) = Except.ok o
  · obtain ⟨hs, hrun⟩ := run_all_ok oracle taxon_id n_obs obs_per_page delay hall
    refine ⟨fun _ => by rw [hrun], fun e he => ?_, ?_⟩
    · rw [hrun] at he
      exact absurd he (by simp)
    · refine ⟨n_obs / obs_per_page + 1, ?_⟩
      rw [hrun]
      have h1 := requestsOf_okTrace taxon_id n_obs obs_per_page delay
        (List.range (n_obs / obs_per_page + 1))
      simp only [okTrace] at h1 ⊢
      rw [h1, List.map_map]
      rfl
  · push_neg at hall
    obtain ⟨i, hi, hbad⟩ := hall
    have hex : ∃ j, (oracle (mkObsRequest taxon_id n_obs obs_per_page j)).isOk = false := by
      refine ⟨i, ?_⟩
      cases hcase : oracle (mkObsRequest taxon_id n_obs obs_per_page i) with
      | error e => rfl
      | ok o => exact absurd hcase (hbad o)
    set k := Nat.find hex with hkdef
    have hkspec := Nat.find_spec hex
    obtain ⟨e, herr⟩ : ∃ e, oracle (mkObsRequest taxon_id n_obs obs_per_page k) =
        Except.error e := by
      cases hcase : oracle (mkObsRequest taxon_id n_obs obs_per_page k) with
      | error e => exact ⟨e, rfl⟩
      | ok o => rw [hcase] at hkspec; exact Bool.noConfusion hkspec
    have hok : ∀ j < k, ∃ o, oracle (mkObsRequest taxon_id n_obs obs_per_page j) =
        Except.ok o := by
      intro j hj
      have := Nat.find_min hex hj
      cases hcase : oracle (mkObsRequest taxon_id n_obs obs_per_page j) with
      | error e2 => exact absurd (by rw [hcase]; rfl) this
      | ok o => exact ⟨o, rfl⟩
    have hklt : k < n_obs / obs_per_page + 1 := by
      have hle : k ≤ i := Nat.find_min' hex (by
        cases hcase : oracle (mkObsRequest taxon_id n_obs obs_per_page i) with
        | error e2 => rfl
        | ok o => exact absurd hcase (hbad o))
      omega
    have hrun := run_fail oracle taxon_id n_obs obs_per_page delay k e hklt hok herr
    refine ⟨fun hok2 => ?_, fun e2 he2 => ?_, ?_⟩
    · obtain ⟨hs, hs2⟩ := hok2
      rw [hrun] at hs2
      exact absurd hs2 (by simp)
    · refine ⟨k, hklt, by rw [hrun], ?_⟩
      rw [hrun] at he2
      simp only at he2
      rw [show e = e2 from by injection he2] at herr
      exact herr
    · refine ⟨k + 1, ?_⟩
      rw [hrun]
      simp only [requestsOf, List.filterMap_append]
      have h1 := requestsOf_okTrace taxon_id n_obs obs_per_page delay (List.range k)
      simp only [requestsOf, okTrace] at h1 ⊢
      rw [h1, List.range_succ, List.map_append, List.map_append, List.map_map]
      rfl

/-- C3 as stated is false on the code: under failFirstOracle the run issues
its first page request, which fails, and the trace contains no sleep at all
— the fetcher does not suspend after the failing request, contradicting
that it suspends after every request including the last. -/
theorem claim_C3_counterexample :
    (get_id_histories_run failFirstOracle 1 450 200 1).1 =
      [Event.request (mkObsRequest 1 450 200 0)]
    ∧ ∀ d, Event.sleep d ∉ (get_id_histories_run failFirstOracle 1 450 200 1).1 := by
  have h1 : (get_id_histories_run failFirstOracle 1 450 200 1).1 =
      [Event.request (mkObsRequest 1 450 200 0)] := rfl
  refine ⟨h1, fun d hd => ?_⟩
  rw [h1] at hd
  simp at hd

/-- Witness: the amended C3 on a fully successful run (trace is a
request-then-sleep pair for all three pages including the last) and on a
run failing at page index 1 (the failing request is last and unslept). -/
theorem claim_C3_ordering_witness :
    (get_id_histories_run (okOracle (ε := Unit) (fun _ => [])) 1 450 200 1).1 =
      okTrace 1 450 200 1 (450 / 200 + 1)
    ∧ ∃ k, k < 450 / 200 + 1 ∧
        (get_id_histories_run failSecondOracle 1 450 200 1).1 =
          okTrace 1 450 200 1 k ++ [Event.request (mkObsRequest 1 450 200 k)] ∧
        failSecondOracle (mkObsRequest 1 450 200 k) = Except.error "boom" := by
  constructor
  · exact (claim_C3_ordering (okOracle (ε := Unit) (fun _ => [])) 1 450 200 1).1
      ⟨[], rfl⟩
  · exact (claim_C3_ordering failSecondOracle 1 450 200 1).2.1 "boom" rfl

/-- C6: for observations_count 450 and page size 200, a fully successful
run issues exactly 3 page requests with per_page values 200, 200 and 50,
pages 1, 2 and 3, in that order, and the trace contains a sleep of the
configured delay after every request, hence at least 2 delay intervals
between the three requests. -/
theorem claim_C6_scenario :
    (get_id_histories_run (okOracle (ε := Unit) (fun _ => [])) 1 450 200 1).1 =
      [Event.request { taxon_id := 1, per_page := 200, page := 1,
                       identified := "true", quality_grade := "research" },
       Event.sleep 1,
       Event.request { taxon_id := 1, per_page := 200, page := 2,
                       identified := "true", quality_grade := "research" },
       Event.sleep 1,
       Event.request { taxon_id := 1, per_page := 50, page := 3,
                       identified := "true", quality_grade := "research" },
       Event.sleep 1] := by
  rfl

/-- C4: get_taxon_id queries the taxon-search endpoint with the name and
returns the id of the first candidate when the result list is non-empty;
when the result list is empty the lookup fails (the indexing obs[0] in the code raises,
modelled as none, the not-found outcome). -/
theorem claim_C4_resolve (search : String → List TaxonRecord) (taxon : String) :
    (search taxon = [] → get_taxon_id search taxon = none)
    ∧ ∀ t rest, search taxon = t :: rest → get_taxon_id search taxon = some t.id := by
  constructor
  · intro h
    unfold get_taxon_id
    rw [h]
  · intro t rest h
    unfold get_taxon_id
    rw [h]

/-- Witness: an empty taxon-search result for the name Zzzznotarealtaxon
makes get_taxon_id fail, and a search whose first candidate is Rumex with
ID 47126 resolves to 47126 even though a second candidate exists. -/
theorem claim_C4_resolve_witness :
    get_taxon_id emptySearch "Zzzznotarealtaxon" = none
    ∧ get_taxon_id rumexSearch "Rumex" = some 47126 :=
  ⟨(claim_C4_resolve emptySearch "Zzzznotarealtaxon").1 rfl,
   (claim_C4_resolve rumexSearch "Rumex").2 ⟨47126, "Rumex", 450⟩ [⟨5, "Other", 3⟩] rfl⟩

/-- C5 is right about the intent but the code is wrong: the body of
get_taxon_names (inat_api.py lines 74-83) consists only of its docstring,
so the Python function returns None for every input, performing no
per-item lookups at all, contradicting its own docstring and the spec; the
documented position-preserving batch behaviour, modelled from the spec,
returns the list of names instead.  Evaluation at the failing input, a
one-element ID list over a lookup that knows that ID. -/
theorem claim_C5_batch_names_bug :
    get_taxon_names [47126] = none
    ∧ get_taxon_names_documented (fun _ => [⟨47126, "Rumex", 450⟩]) [47126] =
        some ["Rumex"]
    ∧ get_taxon_names [47126] ≠
        get_taxon_names_documented (fun _ => [⟨47126, "Rumex", 450⟩]) [47126] := by
  refine ⟨rfl, rfl, ?_⟩
  intro h
  exact Option.noConfusion (h.symm.trans rfl)

/-- C7: the extraction of an identification history is a pure function of
the observation record: the history has exactly one entry per
identification event, the entry at each position is the taxon name of the
identification at that position (no filtering, no deduplication, no
validation), and applying the extraction twice yields identical results. -/
theorem claim_C7_extract (obs_one : Observation) :
    (extractHistory obs_one).history.length = obs_one.identifications.length
    ∧ (∀ k : Nat, (extractHistory obs_one).history[k]? =
        (obs_one.identifications[k]?).map (fun ident => ident.taxon.name))
    ∧ extractHistory obs_one = extractHistory obs_one := by
  refine ⟨?_, ?_, rfl⟩
  · simp [extractHistory]
  · intro k
    simp [extractHistory]

/-- C8: get_sim_spp returns exactly the list of pairs of taxon ID and count
carried by the similar-species response, one pair per result element, in
the order of the response — the same length and the pointwise image, so no
local re-aggregation (duplicate taxon IDs stay separate entries). -/
theorem claim_C8_sim_spp (results : List SimSpRecord) :
    (get_sim_spp results).length = results.length
    ∧ ∀ k : Nat, (get_sim_spp results)[k]? =
        (results[k]?).map (fun sp => (sp.taxon.id, sp.count)) := by
  constructor
  · simp [get_sim_spp]
  · intro k
    simp [get_sim_spp]

/-- C9: when the taxa-by-ID lookup reports a count n for the taxon, calling
get_id_histories with n_obs = None first obtains that count via get_obs_n
and then behaves identically to calling it with n_obs = n explicitly: same
trace of page requests and sleeps, same result. -/
theorem claim_C9_default_count {ε : Type} (env : Env ε) (taxon_id : Nat)
    (obs_per_page : Nat) (delay : ℚ) (n : Nat)
    (h : get_obs_n env taxon_id = some n) :
    get_id_histories env taxon_id none obs_per_page delay =
      get_id_histories env taxon_id (some n) obs_per_page delay := by
  unfold get_id_histories
  rw [h]
  rfl

/-- Witness: in the concrete environment reporting 450 observations for
taxon 47126, the call with n_obs = None equals the call with n_obs = 450. -/
theorem claim_C9_default_count_witness :
    get_obs_n rumexEnv 47126 = some 450
    ∧ get_id_histories rumexEnv 47126 none 200 1 =
        get_id_histories rumexEnv 47126 (some 450) 200 1 :=
  ⟨rfl, claim_C9_default_count rumexEnv 47126 200 1 450 rfl⟩
